import Mathlib

/-!
Shallow embedding of `src/ner_and_pos_tagging.py`: a batch pipeline that loads a
CSV into a pandas DataFrame, annotates the `title` column with named entities and
POS tags via a spaCy model, prints top-entity statistics, and writes the result.

Modelling choices (each noted at the definition it concerns):
* a DataFrame is a list of named columns of cells;
* the spaCy model is an opaque function from text to a document (entity spans and
  tokens), passed in as a parameter; `spacy.load` failing with `OSError` is
  modelled by passing `none`;
* the filesystem is a function from path to the parsed table `pd.read_csv` would
  produce (`none` when the file does not exist, modelling `FileNotFoundError`);
* `print` output is collected as a list of lines; CSV text serialization by
  `to_csv` is abstracted: the run result records the table that was written;
* uncaught Python exceptions (`KeyError`, `ValueError`) are `Except.error`.
-/

namespace NerPos

/-- A cell of a pandas column: strings and ints as read from CSV, and Python
lists of `(str, str)` tuples as produced by the annotator. -/
inductive Cell where
  | str : String → Cell
  | int : Int → Cell
  | pairs : List (String × String) → Cell
deriving DecidableEq

/-- Python `str(x)` on a cell value (used by `extract_features` via `str(text)`).
For a list of pairs it is the Python repr of a list of 2-tuples of strings. -/
def pyStr : Cell → String
  | .str s => s
  | .int n => toString n
  | .pairs l =>
      "[" ++ String.intercalate ", "
        (l.map (fun p => "(\x27" ++ p.1 ++ "\x27, \x27" ++ p.2 ++ "\x27)")) ++ "]"

/-- A pandas DataFrame: an ordered list of named columns, each a list of cells
(row `i` of the table is the `i`-th entry of every column). -/
structure DataFrame where
  cols : List (String × List Cell)
deriving DecidableEq

/-- Column selection `df[name]`: the first column with that name, `none` when
absent (pandas raises `KeyError`; callers turn `none` into the error). -/
def DataFrame.getCol (df : DataFrame) (name : String) : Option (List Cell) :=
  (df.cols.find? (fun c => c.1 == name)).map Prod.snd

/-- Column assignment `df[name] = vals`: replaces the column in place when the
name exists, otherwise appends a new column at the end (pandas semantics). -/
def DataFrame.setCol (df : DataFrame) (name : String) (vals : List Cell) : DataFrame :=
  if df.cols.any (fun c => c.1 == name) then
    ⟨df.cols.map (fun c => if c.1 == name then (name, vals) else c)⟩
  else
    ⟨df.cols ++ [(name, vals)]⟩

/-- `len(df)`: the row count, read off the first column (0 for a frame with no
columns). -/
def DataFrame.nrows (df : DataFrame) : Nat :=
  match df.cols with
  | [] => 0
  | c :: _ => c.2.length

/-- Well-formedness of a frame: every column has exactly `n` entries. -/
def DataFrame.HasShape (df : DataFrame) (n : Nat) : Prop :=
  ∀ c ∈ df.cols, c.2.length = n

/-- A spaCy token: its text and coarse POS tag (`token.text`, `token.pos_`). -/
structure Token where
  text : String
  pos : String
deriving DecidableEq

/-- A spaCy entity span: its text and label (`ent.text`, `ent.label_`). -/
structure Ent where
  text : String
  label : String
deriving DecidableEq

/-- The result of running the model on a text: the recognized entity spans
(`doc.ents`) and the token sequence (iterating `doc`). -/
structure Doc where
  ents : List Ent
  toks : List Token
deriving DecidableEq

/-- The loaded spaCy model `nlp`, an opaque function from text to a document. -/
structure NLPModel where
  run : String → Doc

/-- Uncaught Python exceptions that can escape the pipeline. -/
inductive PyError where
  | keyError : String → PyError
  | valueError : String → PyError
deriving DecidableEq

/-- Fixed configuration constant `INPUT_FILE`. -/
def INPUT_FILE : String := "data/bbc_news.csv"

/-- Fixed configuration constant `OUTPUT_FILE`. -/
def OUTPUT_FILE : String := "data/bbc_news_tagged.csv"

/-- `load_data(filepath)`: reads the CSV at the path, printing a row-count line
on success; on `FileNotFoundError` prints an error naming the path and returns
`None`.  `fs` maps a path to the table `pd.read_csv` parses from it. -/
def load_data (fs : String → Option DataFrame) (filepath : String) :
    Option DataFrame × List String :=
  match fs filepath with
  | some df =>
      (some df, ["Loaded " ++ filepath ++ " with " ++ toString df.nrows ++ " rows."])
  | none => (none, ["Error: File not found at " ++ filepath])

/-- The inner `extract_features(text)`: run the model on `str(text)` and return
the `(ent.text, ent.label_)` pairs and the `(token.text, token.pos_)` pairs. -/
def extract_features (nlp : NLPModel) (text : Cell) :
    List (String × String) × List (String × String) :=
  let doc := nlp.run (pyStr text)
  (doc.ents.map (fun e => (e.text, e.label)), doc.toks.map (fun t => (t.text, t.pos)))

/-- `process_nlp(df)`.  `model` is `none` when `spacy.load` raises `OSError`: the
function then prints a remediation message and returns `df` unchanged.  With a
model, it applies `extract_features` to the `title` column (KeyError when the
column is absent) and unpacks the per-row pairs into the two new columns
`entities` and `pos_tags`; on an empty frame `zip(*results)` yields nothing to
unpack into the two targets, raising `ValueError`. -/
def process_nlp (model : Option NLPModel) (df : DataFrame) :
    Except PyError (DataFrame × List String) :=
  match model with
  | none =>
      .ok (df, ["Error: Model not found. Please run: python -m spacy download en_core_web_sm"])
  | some nlp =>
      match df.getCol "title" with
      | none => .error (.keyError "title")
      | some titles =>
          let results := titles.map (extract_features nlp)
          match results with
          | [] => .error (.valueError "not enough values to unpack (expected 2, got 0)")
          | _ :: _ =>
              let df1 := df.setCol "entities" (results.map (fun r => Cell.pairs r.1))
              let df2 := df1.setCol "pos_tags" (results.map (fun r => Cell.pairs r.2))
              .ok (df2, ["Processing text (this may take a moment)..."])

/-- First occurrences, in order, of the elements of a list not already in
`seen`: the iteration order of the keys of a Python dict built by insertion. -/
def firstOccs (seen : List String) : List String → List String
  | [] => []
  | x :: xs => if x ∈ seen then firstOccs seen xs else x :: firstOccs (x :: seen) xs

/-- The distinct elements of `l` in first-encounter order. -/
def dedupFirst (l : List String) : List String := firstOccs [] l

/-- `Counter(l).items()`: each distinct element paired with its total count, in
first-encounter (insertion) order. -/
def counterItems (l : List String) : List (String × Nat) :=
  (dedupFirst l).map (fun s => (s, l.count s))

/-- `Counter.most_common(n)` on an items list: `heapq.nlargest(n, items,
key=itemgetter(1))`, i.e. a stable sort by count descending, truncated to `n`. -/
def mostCommon (n : Nat) (items : List (String × Nat)) : List (String × Nat) :=
  (items.insertionSort (fun a b => b.2 ≤ a.2)).take n

/-- Iterating a cell of the `entities` column: the list of its pairs.  In the
pipeline every cell of that column is built by `process_nlp` and is a `pairs`
cell; other shapes (unreachable there) yield no entities. -/
def cellPairs : Cell → List (String × String)
  | .pairs l => l
  | _ => []

/-- `show_stats(df)`: flattens `df[entities]` taking `ent[0]` of each pair
(`KeyError` when the column is absent), prints a notice when nothing was found,
otherwise prints the top five.  Returns the printed lines and the ranked list
(`none` when the empty notice was printed instead). -/
def show_stats (df : DataFrame) :
    Except PyError (List String × Option (List (String × Nat))) :=
  match df.getCol "entities" with
  | none => .error (.keyError "entities")
  | some col =>
      let all_ents := col.flatMap (fun row => (cellPairs row).map Prod.fst)
      match all_ents with
      | [] => .ok (["\n No entities found."], none)
      | _ :: _ =>
          let top_ents := mostCommon 5 (counterItems all_ents)
          .ok (["\n Top 5 Entities Found in Headlines:"] ++
                top_ents.map (fun p => "   - " ++ p.1 ++ ": " ++ toString p.2),
               some top_ents)

/-- The outcome of one run of `main`: the table written to `OUTPUT_FILE` (or
`none` when the run wrote nothing) and the printed lines. -/
structure RunResult where
  output : Option DataFrame
  prints : List String
deriving DecidableEq

/-- `main()`: load, annotate, report, save.  A `None` from `load_data` skips
everything (no output file); an uncaught exception anywhere aborts the run
before `to_csv`, so no output is written on that path either. -/
def main (fs : String → Option DataFrame) (model : Option NLPModel) :
    Except PyError RunResult :=
  match load_data fs INPUT_FILE with
  | (none, pr) => .ok ⟨none, pr⟩
  | (some df, pr) =>
      match process_nlp model df with
      | .error e => .error e
      | .ok (df_tagged, pr2) =>
          match show_stats df_tagged with
          | .error e => .error e
          | .ok (pr3, _top) =>
              .ok ⟨some df_tagged,
                   pr ++ pr2 ++ pr3 ++
                     ["\n Processed data saved successfully to: " ++ OUTPUT_FILE]⟩

-- Equality of run outcomes is decidable (used to evaluate concrete runs).
deriving instance DecidableEq for Except

/-- A one-file filesystem: the parsed table `df` sits at `INPUT_FILE`. -/
def fsOf (df : DataFrame) : String → Option DataFrame :=
  fun p => if p = INPUT_FILE then some df else none

/-- Fixture: a one-row table with a single `title` column. -/
def dfOneRow : DataFrame := ⟨[("title", [Cell.str "Rain in London"])]⟩

/-- Fixture: a stand-in pretrained model.  It recognizes `London` in the one
headline of `dfOneRow` and tokenizes any non-empty text as a single noun. -/
def toyModel : NLPModel :=
  ⟨fun s => ⟨if s = "Rain in London" then [⟨"London", "GPE"⟩] else [],
             if s = "" then [] else [⟨s, "NOUN"⟩]⟩⟩

/-- Fixture: an annotated table whose entity column mentions London in 3 rows,
Paris in 2 rows and Berlin in 1 row, under varying labels. -/
def dfStats : DataFrame :=
  ⟨[("title",
      [Cell.str "t1", Cell.str "t2", Cell.str "t3",
       Cell.str "t4", Cell.str "t5", Cell.str "t6"]),
    ("entities",
      [Cell.pairs [("London", "GPE")], Cell.pairs [("Paris", "GPE")],
       Cell.pairs [("London", "LOC")], Cell.pairs [("Berlin", "GPE")],
       Cell.pairs [("Paris", "PER")], Cell.pairs [("London", "ORG")]])]⟩

/-- Fixture: a header-only table (a `title` column with zero rows). -/
def dfEmptyRows : DataFrame := ⟨[("title", [])]⟩

/-- Fixture: a table with one row but no `title` column. -/
def dfNoTitle : DataFrame := ⟨[("headline", [Cell.str "Rain in London"])]⟩

/-- Fixture: an annotated table in which the model found no entities. -/
def dfNoEnts : DataFrame :=
  ⟨[("title", [Cell.str "t1"]), ("entities", [Cell.pairs []])]⟩

/-- The count-descending comparison used by `mostCommon` is total. -/
instance : IsTotal (String × Nat) (fun a b => b.2 ≤ a.2) :=
  ⟨fun a b => Nat.le_total b.2 a.2⟩

/-- The count-descending comparison used by `mostCommon` is transitive. -/
instance : IsTrans (String × Nat) (fun a b => b.2 ≤ a.2) :=
  ⟨fun _ _ _ hab hbc => Nat.le_trans hbc hab⟩

/-- An element produced by `firstOccs seen l` was not already in `seen`. -/
theorem mem_firstOccs {a : String} :
    ∀ {seen l : List String}, a ∈ firstOccs seen l → a ∉ seen := by
  intro seen l
  induction l generalizing seen with
  | nil => intro h; cases h
  | cons x xs ih =>
    intro h
    unfold firstOccs at h
    by_cases hx : x ∈ seen
    · rw [if_pos hx] at h
      exact ih h
    · rw [if_neg hx] at h
      rcases List.mem_cons.mp h with rfl | h2
      · exact hx
      · intro hs
        exact ih h2 (List.mem_cons_of_mem _ hs)

/-- The first-occurrence list has no duplicates. -/
theorem nodup_firstOccs : ∀ (seen l : List String), (firstOccs seen l).Nodup := by
  intro seen l
  induction l generalizing seen with
  | nil => exact List.nodup_nil
  | cons x xs ih =>
    unfold firstOccs
    by_cases hx : x ∈ seen
    · rw [if_pos hx]
      exact ih _
    · rw [if_neg hx]
      exact List.nodup_cons.mpr ⟨fun hmem => (mem_firstOccs hmem) (List.mem_cons_self x _), ih _⟩

/-- The items of the counter are pairwise distinct. -/
theorem nodup_counterItems (l : List String) : (counterItems l).Nodup :=
  (nodup_firstOccs [] l).map (fun _ _ h => congrArg Prod.fst h)

/-- Every pair reported by `most_common` carries the exact occurrence count of
its entity text in the flattened list. -/
theorem mostCommon_count (l : List String) :
    ∀ p ∈ mostCommon 5 (counterItems l), p.2 = l.count p.1 := by
  intro p hp
  have h1 : p ∈ (counterItems l).insertionSort (fun a b => b.2 ≤ a.2) :=
    List.take_subset _ _ hp
  have h2 : p ∈ counterItems l := (List.perm_insertionSort _ _).mem_iff.mp h1
  rcases List.mem_map.mp h2 with ⟨s, _, rfl⟩
  rfl

/-- Every entity left out of the top-5 list has a count no larger than any
count that made the list: `most_common(5)` selects maximal counts. -/
theorem mostCommon_top (l : List String) :
    ∀ q ∈ counterItems l, q ∉ mostCommon 5 (counterItems l) →
      ∀ p ∈ mostCommon 5 (counterItems l), q.2 ≤ p.2 := by
  intro q hq hqn p hp
  have hs := List.sorted_insertionSort (fun a b => b.2 ≤ a.2) (counterItems l)
  have hqL : q ∈ (counterItems l).insertionSort (fun a b => b.2 ≤ a.2) :=
    (List.perm_insertionSort _ _).mem_iff.mpr hq
  rw [← List.take_append_drop 5 ((counterItems l).insertionSort (fun a b => b.2 ≤ a.2))] at hs hqL
  have hdrop : q ∈ ((counterItems l).insertionSort (fun a b => b.2 ≤ a.2)).drop 5 := by
    rcases List.mem_append.mp hqL with h | h
    · exact absurd h hqn
    · exact h
  exact (List.pairwise_append.mp hs).2.2 p hp q hdrop

/-- Insertion sort followed by `take` keeps the relative order of a pair of
distinct elements that survives truncation. -/
theorem pair_sublist_take {α : Type} {a b : α} :
    ∀ {L : List α} {n : Nat}, L.Nodup → List.Sublist [a, b] L → b ∈ L.take n →
      List.Sublist [a, b] (L.take n) := by
  intro L
  induction L with
  | nil =>
    intro n _ hs _
    cases hs
  | cons c L ih =>
    intro n hnd hs hb
    cases n with
    | zero => cases hb
    | succ m =>
      rw [List.take_succ_cons] at hb ⊢
      cases hs with
      | cons _ h2 =>
        have hbL : b ∈ L := h2.subset (by simp)
        rcases List.mem_cons.mp hb with rfl | hb2
        · exact absurd hbL (List.nodup_cons.mp hnd).1
        · exact List.Sublist.cons c (ih (List.nodup_cons.mp hnd).2 h2 hb2)
      | cons₂ _ h2 =>
        have hbL : b ∈ L := List.singleton_sublist.mp h2
        rcases List.mem_cons.mp hb with rfl | hb2
        · exact absurd hbL (List.nodup_cons.mp hnd).1
        · exact List.Sublist.cons₂ _ (List.singleton_sublist.mpr hb2)

/-- Claim C3: the Aggregator counts exact (case-sensitive) occurrences of each
entity text with labels ignored and keeps only maximal counts; on the synthetic
table with London in 3 rows, Paris in 2 and Berlin in 1 (labels varying), the
full Aggregator returns exactly London 3, Paris 2, Berlin 1 in that order. -/
theorem C3_aggregation (l : List String) :
    (∀ p ∈ mostCommon 5 (counterItems l), p.2 = l.count p.1) ∧
    (∀ q ∈ counterItems l, q ∉ mostCommon 5 (counterItems l) →
        ∀ p ∈ mostCommon 5 (counterItems l), q.2 ≤ p.2) ∧
    show_stats dfStats =
      .ok (["\n Top 5 Entities Found in Headlines:",
            "   - London: 3", "   - Paris: 2", "   - Berlin: 1"],
           some [("London", 3), ("Paris", 2), ("Berlin", 1)]) :=
  ⟨mostCommon_count l, mostCommon_top l, by decide⟩

/-- Witness for C3: the count conjunct at London in the synthetic flattened
list, and the maximality conjunct on a list where a sixth entity is cut. -/
theorem C3_aggregation_witness :
    (("London", 3) : String × Nat).2 =
        List.count "London" ["London", "Paris", "London", "Berlin", "Paris", "London"] ∧
    (("f", 1) : String × Nat).2 ≤ (("a", 2) : String × Nat).2 :=
  ⟨(C3_aggregation ["London", "Paris", "London", "Berlin", "Paris", "London"]).1
      ("London", 3) (by decide),
   (C3_aggregation ["a", "a", "b", "c", "d", "e", "f"]).2.1
      ("f", 1) (by decide) (by decide) ("a", 2) (by decide)⟩

/-- Claim C5: ties in the top-5 ranking keep first-encounter order.  If `x` is
first encountered before `y` in the flattened entity list, both have count `c`,
and `y` made the truncated list, then `x` is in the list as well and precedes
`y` (stated as the pair being a sublist of the ranked result). -/
theorem C5_tie_stability (l : List String) (x y : String) (c : Nat)
    (hxy : List.Sublist [x, y] (dedupFirst l))
    (hcx : l.count x = c) (hcy : l.count y = c)
    (hy : (y, c) ∈ mostCommon 5 (counterItems l)) :
    List.Sublist [(x, c), (y, c)] (mostCommon 5 (counterItems l)) := by
  have hsub : List.Sublist [(x, c), (y, c)] (counterItems l) := by
    have hm := hxy.map (fun s => (s, l.count s))
    simpa [counterItems, hcx, hcy] using hm
  have hpair : List.Sublist [(x, c), (y, c)]
      ((counterItems l).insertionSort (fun a b => b.2 ≤ a.2)) :=
    List.pair_sublist_insertionSort (le_refl c) hsub
  have hnd : ((counterItems l).insertionSort (fun a b => b.2 ≤ a.2)).Nodup :=
    (List.perm_insertionSort _ _).nodup_iff.mpr (nodup_counterItems l)
  unfold mostCommon at hy ⊢
  exact pair_sublist_take hnd hpair hy

/-- Witness for C5 on the flattened list a, b, a, b, c: a and b tie at 2 and
keep their first-encounter order in the ranked list. -/
theorem C5_tie_stability_witness :
    List.Sublist [("a", 2), ("b", 2)] (mostCommon 5 (counterItems ["a", "b", "a", "b", "c"])) :=
  C5_tie_stability ["a", "b", "a", "b", "c"] "a" "b" 2
    (by decide) (by decide) (by decide) (by decide)

/-- Claim C2: when the input path does not resolve to a file, `load_data`
catches `FileNotFoundError`, a message naming the missing path is printed, and
`main` returns having written no output file at all. -/
theorem C2_missing_input (fs : String → Option DataFrame) (model : Option NLPModel)
    (hfs : fs INPUT_FILE = none) :
    main fs model = .ok ⟨none, ["Error: File not found at " ++ INPUT_FILE]⟩ := by
  unfold main load_data
  rw [hfs]

/-- Witness for C2 on a concrete empty filesystem. -/
theorem C2_missing_input_witness :
    main (fun _ => none) none = .ok ⟨none, ["Error: File not found at " ++ INPUT_FILE]⟩ :=
  C2_missing_input (fun _ => none) none rfl

/-- Claim C1, what the code actually does: with the model unavailable,
`process_nlp` does return the table unchanged, but the run then aborts with an
uncaught `KeyError` on the missing `entities` column inside `show_stats`, so the
Aggregator never reports zero entities and no output file is written. -/
theorem C1_degraded_mode_crashes :
    process_nlp none dfOneRow =
      .ok (dfOneRow,
        ["Error: Model not found. Please run: python -m spacy download en_core_web_sm"]) ∧
    main (fsOf dfOneRow) none = .error (.keyError "entities") := by
  constructor
  · rfl
  · decide

/-- Claim C6: when the flattened entity list over all rows is empty, the
Aggregator prints the no-entities notice, raises nothing, and produces no
ranked list. -/
theorem C6_no_entities (df : DataFrame) (col : List Cell)
    (hc : df.getCol "entities" = some col)
    (hflat : col.flatMap (fun row => (cellPairs row).map Prod.fst) = []) :
    show_stats df = .ok (["\n No entities found."], none) := by
  unfold show_stats
  rw [hc]
  simp only [hflat]

/-- Witness for C6 on a table whose one row has an empty entity list. -/
theorem C6_no_entities_witness :
    show_stats dfNoEnts = .ok (["\n No entities found."], none) :=
  C6_no_entities dfNoEnts [Cell.pairs []] rfl rfl

/-- Claim C9: on a header-only CSV (zero rows), `zip(*results)` has nothing to
unpack into the two column targets, so the run aborts with an uncaught
`ValueError` and the pipeline does not complete. -/
theorem C9_empty_table_valueError (fs : String → Option DataFrame) (df : DataFrame)
    (m : NLPModel) (hfs : fs INPUT_FILE = some df)
    (ht : df.getCol "title" = some []) :
    main fs (some m) = .error (.valueError "not enough values to unpack (expected 2, got 0)") := by
  have h1 : load_data fs INPUT_FILE =
      (some df, ["Loaded " ++ INPUT_FILE ++ " with " ++ toString df.nrows ++ " rows."]) := by
    unfold load_data
    rw [hfs]
  have h2 : process_nlp (some m) df =
      .error (.valueError "not enough values to unpack (expected 2, got 0)") := by
    unfold process_nlp
    rw [ht]
    rfl
  unfold main
  simp only [h1, h2]

/-- Witness for C9 on a concrete zero-row table. -/
theorem C9_empty_table_valueError_witness :
    main (fsOf dfEmptyRows) (some toyModel) =
      .error (.valueError "not enough values to unpack (expected 2, got 0)") :=
  C9_empty_table_valueError (fsOf dfEmptyRows) dfEmptyRows toyModel (by decide) rfl

/-- Claim C10: when the loaded table has no `title` column, selecting
`df[title]` raises an uncaught `KeyError` that propagates out of the run. -/
theorem C10_missing_title_keyError (fs : String → Option DataFrame) (df : DataFrame)
    (m : NLPModel) (hfs : fs INPUT_FILE = some df)
    (ht : df.getCol "title" = none) :
    main fs (some m) = .error (.keyError "title") := by
  have h1 : load_data fs INPUT_FILE =
      (some df, ["Loaded " ++ INPUT_FILE ++ " with " ++ toString df.nrows ++ " rows."]) := by
    unfold load_data
    rw [hfs]
  have h2 : process_nlp (some m) df = .error (.keyError "title") := by
    unfold process_nlp
    rw [ht]
  unfold main
  simp only [h1, h2]

/-- Witness for C10 on a table whose only column is `headline`. -/
theorem C10_missing_title_keyError_witness :
    main (fsOf dfNoTitle) (some toyModel) = .error (.keyError "title") :=
  C10_missing_title_keyError (fsOf dfNoTitle) dfNoTitle toyModel (by decide) rfl

/-- Overwriting the first column named `n` and searching for `n` finds the new
entry whenever some column named `n` exists. -/
theorem find?_overwrite (n : String) (v : List Cell) :
    ∀ cs : List (String × List Cell), cs.any (fun c => c.1 == n) = true →
      (cs.map (fun c => if c.1 == n then (n, v) else c)).find? (fun c => c.1 == n) =
        some (n, v) := by
  intro cs
  induction cs with
  | nil => intro h; simp at h
  | cons c cs ih =>
    intro h
    simp only [List.map_cons]
    by_cases hc : (c.1 == n) = true
    · rw [if_pos hc]
      exact List.find?_cons_of_pos _ (by simp)
    · rw [if_neg hc]
      rw [List.find?_cons_of_neg (p := fun x : String × List Cell => x.1 == n) _ hc]
      apply ih
      simpa [List.any_cons, hc] using h

/-- Overwriting the column named `n` leaves searches for any other name
unchanged. -/
theorem find?_overwrite_ne (n n' : String) (v : List Cell) (hne : n' ≠ n) :
    ∀ cs : List (String × List Cell),
      (cs.map (fun c => if c.1 == n then (n, v) else c)).find? (fun c => c.1 == n') =
        cs.find? (fun c => c.1 == n') := by
  intro cs
  have hnn' : ¬ ((n == n') = true) := by
    simp only [beq_iff_eq]
    exact fun hh => hne hh.symm
  induction cs with
  | nil => rfl
  | cons c cs ih =>
    simp only [List.map_cons]
    by_cases hc : (c.1 == n) = true
    · rw [if_pos hc]
      have hcn' : ¬ ((c.1 == n') = true) := by
        simp only [beq_iff_eq] at hc ⊢
        rw [hc]
        exact fun hh => hne hh.symm
      rw [List.find?_cons_of_neg (p := fun x : String × List Cell => x.1 == n') _ hnn',
        List.find?_cons_of_neg (p := fun x : String × List Cell => x.1 == n') _ hcn']
      exact ih
    · rw [if_neg hc]
      by_cases hc' : (c.1 == n') = true
      · rw [List.find?_cons_of_pos (p := fun x : String × List Cell => x.1 == n') _ hc',
          List.find?_cons_of_pos (p := fun x : String × List Cell => x.1 == n') _ hc']
      · rw [List.find?_cons_of_neg (p := fun x : String × List Cell => x.1 == n') _ hc',
          List.find?_cons_of_neg (p := fun x : String × List Cell => x.1 == n') _ hc']
        exact ih

/-- Reading back a freshly assigned column yields the assigned values. -/
theorem getCol_setCol_self (df : DataFrame) (n : String) (v : List Cell) :
    (df.setCol n v).getCol n = some v := by
  unfold DataFrame.setCol DataFrame.getCol
  by_cases h : (df.cols.any (fun c => c.1 == n)) = true
  · rw [if_pos h]
    show (((df.cols.map (fun c => if c.1 == n then (n, v) else c)).find?
      (fun c => c.1 == n)).map Prod.snd) = some v
    rw [find?_overwrite n v df.cols h]
    rfl
  · rw [if_neg h]
    show (((df.cols ++ [(n, v)]).find? (fun c => c.1 == n)).map Prod.snd) = some v
    rw [List.find?_append]
    have h1 : df.cols.find? (fun c => c.1 == n) = none :=
      List.find?_eq_none.mpr (fun x hx hpx => h (List.any_eq_true.mpr ⟨x, hx, hpx⟩))
    rw [h1]
    simp

/-- Assigning one column leaves every other column untouched. -/
theorem getCol_setCol_ne (df : DataFrame) (n n' : String) (v : List Cell)
    (hne : n' ≠ n) : (df.setCol n v).getCol n' = df.getCol n' := by
  unfold DataFrame.setCol DataFrame.getCol
  by_cases h : (df.cols.any (fun c => c.1 == n)) = true
  · rw [if_pos h]
    show (((df.cols.map (fun c => if c.1 == n then (n, v) else c)).find?
      (fun c => c.1 == n')).map Prod.snd) = _
    rw [find?_overwrite_ne n n' v hne]
  · rw [if_neg h]
    show (((df.cols ++ [(n, v)]).find? (fun c => c.1 == n')).map Prod.snd) = _
    rw [List.find?_append]
    have h1 : ([((n, v) : String × List Cell)].find? (fun c => c.1 == n')) = none := by
      rw [List.find?_eq_none]
      intro x hx
      rw [List.mem_singleton.mp hx]
      simp only [beq_iff_eq]
      exact fun hh => hne hh.symm
    rw [h1, Option.or_none]

/-- Assigning a column of the right length preserves the shape invariant. -/
theorem setCol_shape {df : DataFrame} {k : Nat} {n : String} {v : List Cell}
    (hs : df.HasShape k) (hv : v.length = k) : (df.setCol n v).HasShape k := by
  unfold DataFrame.setCol
  by_cases h : (df.cols.any (fun c => c.1 == n)) = true
  · rw [if_pos h]
    intro c hc
    rcases List.mem_map.mp hc with ⟨c0, hc0, rfl⟩
    split_ifs
    · exact hv
    · exact hs c0 hc0
  · rw [if_neg h]
    intro c hc
    rcases List.mem_append.mp hc with h1 | h1
    · exact hs c h1
    · rw [List.mem_singleton.mp h1]
      exact hv

/-- Assigning a column never empties the column list. -/
theorem setCol_cols_ne_nil (df : DataFrame) (n : String) (v : List Cell) :
    (df.setCol n v).cols ≠ [] := by
  unfold DataFrame.setCol
  by_cases h : (df.cols.any (fun c => c.1 == n)) = true
  · rw [if_pos h]
    intro hc
    have hc2 : df.cols = [] := List.map_eq_nil_iff.mp hc
    rw [hc2] at h
    simp at h
  · rw [if_neg h]
    simp

/-- On a non-degenerate well-shaped frame, the row count is the shared column
length. -/
theorem nrows_of_shape {df : DataFrame} {k : Nat} (hne : df.cols ≠ [])
    (hs : df.HasShape k) : df.nrows = k := by
  unfold DataFrame.nrows
  rcases hcc : df.cols with _ | ⟨c, cs⟩
  · exact absurd hcc hne
  · exact hs c (by rw [hcc]; exact List.mem_cons_self c cs)

/-- A frame with a readable column has at least one column. -/
theorem cols_ne_nil_of_getCol {df : DataFrame} {n : String} {ts : List Cell}
    (h : df.getCol n = some ts) : df.cols ≠ [] := by
  intro hc
  unfold DataFrame.getCol at h
  rw [hc] at h
  cases h

/-- In a well-shaped frame every readable column has the shared length. -/
theorem length_of_getCol {df : DataFrame} {k : Nat} {n : String} {ts : List Cell}
    (hs : df.HasShape k) (h : df.getCol n = some ts) : ts.length = k := by
  unfold DataFrame.getCol at h
  rcases hf : df.cols.find? (fun c => c.1 == n) with _ | c
  · rw [hf] at h
    cases h
  · rw [hf] at h
    have h2 : c.2 = ts := Option.some.inj h
    rw [← h2]
    exact hs c (List.mem_of_find?_eq_some hf)

/-- Evaluation of `process_nlp` on a loaded model and a non-empty title column:
the per-row results are unpacked into the two new columns. -/
theorem process_nlp_some (m : NLPModel) (df : DataFrame) (t0 : Cell) (ts : List Cell)
    (ht : df.getCol "title" = some (t0 :: ts)) :
    process_nlp (some m) df =
      .ok ((df.setCol "entities"
              (((t0 :: ts).map (extract_features m)).map (fun r => Cell.pairs r.1))).setCol
              "pos_tags" (((t0 :: ts).map (extract_features m)).map (fun r => Cell.pairs r.2)),
           ["Processing text (this may take a moment)..."]) := by
  unfold process_nlp
  rw [ht]
  rfl

/-- Claim C4: with the model available, annotating a well-shaped table with a
non-empty `title` column keeps the row count, keeps every original column
verbatim (hence row order), and only adds the `entities` and `pos_tags`
columns, each aligned to the original rows. -/
theorem C4_frame_preserved (m : NLPModel) (df : DataFrame) (ts : List Cell)
    (hshape : df.HasShape df.nrows)
    (ht : df.getCol "title" = some ts) (hne : ts ≠ []) :
    ∃ df2 pr, process_nlp (some m) df = .ok (df2, pr) ∧
      df2.nrows = df.nrows ∧
      (∀ nm, nm ≠ "entities" → nm ≠ "pos_tags" → df2.getCol nm = df.getCol nm) ∧
      (∃ e, df2.getCol "entities" = some e ∧ e.length = df.nrows) ∧
      (∃ p, df2.getCol "pos_tags" = some p ∧ p.length = df.nrows) := by
  obtain ⟨t0, ts', rfl⟩ := List.exists_cons_of_ne_nil hne
  have hlen : (t0 :: ts').length = df.nrows := length_of_getCol hshape ht
  have hElen : (((t0 :: ts').map (extract_features m)).map
      (fun r => Cell.pairs r.1)).length = df.nrows := by
    rw [List.length_map, List.length_map]
    exact hlen
  have hPlen : (((t0 :: ts').map (extract_features m)).map
      (fun r => Cell.pairs r.2)).length = df.nrows := by
    rw [List.length_map, List.length_map]
    exact hlen
  refine ⟨_, _, process_nlp_some m df t0 ts' ht, ?_, ?_, ?_, ?_⟩
  · have hs2 : ((df.setCol "entities" _).setCol "pos_tags" _).HasShape df.nrows :=
      setCol_shape (setCol_shape hshape hElen) hPlen
    exact nrows_of_shape (setCol_cols_ne_nil _ _ _) hs2
  · intro nm hne1 hne2
    rw [getCol_setCol_ne _ _ _ _ hne2, getCol_setCol_ne _ _ _ _ hne1]
  · exact ⟨_, by rw [getCol_setCol_ne _ _ _ _ (by decide), getCol_setCol_self], hElen⟩
  · exact ⟨_, by rw [getCol_setCol_self], hPlen⟩

/-- Witness for C4 on the one-row fixture table and the stand-in model. -/
theorem C4_frame_preserved_witness :
    ∃ df2 pr, process_nlp (some toyModel) dfOneRow = .ok (df2, pr) ∧
      df2.nrows = dfOneRow.nrows ∧
      (∀ nm, nm ≠ "entities" → nm ≠ "pos_tags" → df2.getCol nm = dfOneRow.getCol nm) ∧
      (∃ e, df2.getCol "entities" = some e ∧ e.length = dfOneRow.nrows) ∧
      (∃ p, df2.getCol "pos_tags" = some p ∧ p.length = dfOneRow.nrows) :=
  C4_frame_preserved toyModel dfOneRow [Cell.str "Rain in London"]
    (by
      intro c hc
      rw [List.mem_singleton.mp hc]
      rfl)
    (by decide) (by decide)

/-- Claim C7: each row is annotated independently of every other row — the new
columns are pointwise images of the `title` column — and the title value is
coerced to text by `str(...)` (here `pyStr`) before the model runs on it. -/
theorem C7_row_independent (m : NLPModel) (df : DataFrame) (ts : List Cell)
    (ht : df.getCol "title" = some ts) (hne : ts ≠ []) :
    ∃ df2 pr, process_nlp (some m) df = .ok (df2, pr) ∧
      df2.getCol "entities" =
        some (ts.map (fun t =>
          Cell.pairs ((m.run (pyStr t)).ents.map (fun e => (e.text, e.label))))) ∧
      df2.getCol "pos_tags" =
        some (ts.map (fun t =>
          Cell.pairs ((m.run (pyStr t)).toks.map (fun tk => (tk.text, tk.pos))))) := by
  obtain ⟨t0, ts', rfl⟩ := List.exists_cons_of_ne_nil hne
  refine ⟨_, _, process_nlp_some m df t0 ts' ht, ?_, ?_⟩
  · rw [getCol_setCol_ne _ _ _ _ (by decide), getCol_setCol_self]
    rw [List.map_map]
    rfl
  · rw [getCol_setCol_self]
    rw [List.map_map]
    rfl

/-- Witness for C7 on the one-row fixture table and the stand-in model. -/
theorem C7_row_independent_witness :
    ∃ df2 pr, process_nlp (some toyModel) dfOneRow = .ok (df2, pr) ∧
      df2.getCol "entities" =
        some ([Cell.str "Rain in London"].map (fun t =>
          Cell.pairs ((toyModel.run (pyStr t)).ents.map (fun e => (e.text, e.label))))) ∧
      df2.getCol "pos_tags" =
        some ([Cell.str "Rain in London"].map (fun t =>
          Cell.pairs ((toyModel.run (pyStr t)).toks.map (fun tk => (tk.text, tk.pos))))) :=
  C7_row_independent toyModel dfOneRow [Cell.str "Rain in London"] (by decide) (by decide)

/-- Claim C8: each row's `pos_tags` holds exactly one pair per token the model
produces for that row's title text, so its length equals the token count, and
it is non-empty whenever the title text is non-empty (given a tokenizer that
produces at least one token for non-empty text). -/
theorem C8_pos_per_token (m : NLPModel)
    (htok : ∀ s, s ≠ "" → (m.run s).toks ≠ [])
    (df : DataFrame) (ts : List Cell)
    (ht : df.getCol "title" = some ts) (hne : ts ≠ []) :
    ∃ df2 pr, process_nlp (some m) df = .ok (df2, pr) ∧
      df2.getCol "pos_tags" = some (ts.map (fun t => Cell.pairs (extract_features m t).2)) ∧
      (∀ t ∈ ts, (extract_features m t).2.length = (m.run (pyStr t)).toks.length) ∧
      (∀ t ∈ ts, pyStr t ≠ "" → (extract_features m t).2 ≠ []) := by
  obtain ⟨t0, ts', rfl⟩ := List.exists_cons_of_ne_nil hne
  refine ⟨_, _, process_nlp_some m df t0 ts' ht, ?_, ?_, ?_⟩
  · rw [getCol_setCol_self]
    rw [List.map_map]
    rfl
  · intro t _
    exact List.length_map _ _
  · intro t _ hpt hmap
    exact htok _ hpt (List.map_eq_nil_iff.mp hmap)

/-- Witness for C8 on the one-row fixture table and the stand-in model, whose
tokenizer returns one token for any non-empty text. -/
theorem C8_pos_per_token_witness :
    ∃ df2 pr, process_nlp (some toyModel) dfOneRow = .ok (df2, pr) ∧
      df2.getCol "pos_tags" =
        some ([Cell.str "Rain in London"].map
          (fun t => Cell.pairs (extract_features toyModel t).2)) ∧
      (∀ t ∈ [Cell.str "Rain in London"],
        (extract_features toyModel t).2.length = (toyModel.run (pyStr t)).toks.length) ∧
      (∀ t ∈ [Cell.str "Rain in London"],
        pyStr t ≠ "" → (extract_features toyModel t).2 ≠ []) :=
  C8_pos_per_token toyModel
    (fun s hs => by simp [toyModel, hs])
    dfOneRow [Cell.str "Rain in London"] (by decide) (by decide)

end NerPos
